import Mathlib

/-
Verification of the todo CRUD flow of a server-rendered React application:
the REST facade over the key-value store (src/workers/app.ts), the route
action that dispatches tagged intents (src/app/routes/todos.tsx), the
reconciliation of action results into the view-local list, the toast
notification layer (src/app/context/toast-context.tsx) and the
deferred-delete-with-undo flow tied to a notification dismiss callback.

Timestamps (ISO strings produced by new Date) are modelled as natural-number
clock readings; generated identifiers (crypto.randomUUID, toast ids) are
passed in as parameters.
-/

namespace TodoApp

/-- A todo record as stored in the key-value store (interface Todo in
src/workers/app.ts, plus whatever the JSON request body contributed).
The title is optional because the facade writes the request body merged
with the server-assigned fields without validating that a title is
present. -/
structure StoredTodo where
  id : String
  title : Option String
  completed : Bool
  createdAt : Nat
  updatedAt : Option Nat
deriving Repr, DecidableEq

/-- A JSON request body for POST /api/todos or PUT /api/todos/:id.
Every field is optional: the facade spreads whatever fields arrived. -/
structure TodoBody where
  id : Option String
  title : Option String
  completed : Option Bool
  createdAt : Option Nat
  updatedAt : Option Nat
deriving Repr, DecidableEq

/-- The key-value store (TODOS_KV): an association list keyed by id. -/
abbrev Store := List (String × StoredTodo)

/-- KV get: the value stored under a key, if any. -/
def kvGet (s : Store) (id : String) : Option StoredTodo :=
  match s with
  | [] => none
  | (k, v) :: rest => if k = id then some v else kvGet rest id

/-- KV delete: removes the key; a no-op when the key is absent. -/
def kvDelete (s : Store) (id : String) : Store :=
  s.filter (fun p => p.1 ≠ id)

/-- KV put: stores a value under a key, overwriting any previous value. -/
def kvPut (s : Store) (id : String) (v : StoredTodo) : Store :=
  (id, v) :: kvDelete s id

/-- Spread-merge of an optional request field over an optional stored field:
a field present in the update wins, otherwise the stored field is kept
(JavaScript object spread). -/
def mergeOpt (u e : Option α) : Option α :=
  match u with
  | some v => some v
  | none => e

/-- POST /api/todos (todos.post in src/workers/app.ts): spreads the request
body, then overrides id with a freshly generated one, completed with false
and createdAt with the current time, writes the record and returns it with
HTTP 201. No validation of the body (in particular of the title) happens
here. -/
def todosPost (s : Store) (body : TodoBody) (genId : String) (now : Nat) :
    Store × StoredTodo :=
  let newTodo : StoredTodo :=
    { id := genId
      title := body.title
      completed := false
      createdAt := now
      updatedAt := body.updatedAt }
  (kvPut s genId newTodo, newTodo)

/-- Outcome of PUT /api/todos/:id. -/
inductive PutResult where
  | notFound
  | ok (t : StoredTodo)
deriving Repr, DecidableEq

/-- The HTTP status code the facade attaches to a PUT outcome. -/
def PutResult.status : PutResult → Nat
  | PutResult.notFound => 404
  | PutResult.ok _ => 200

/-- The record produced by spreading the update body over the existing
record and then refreshing updatedAt with the current time
(the object literal in todos.put). -/
def applyUpdates (existing : StoredTodo) (updates : TodoBody) (now : Nat) :
    StoredTodo :=
  { id := updates.id.getD existing.id
    title := mergeOpt updates.title existing.title
    completed := updates.completed.getD existing.completed
    createdAt := updates.createdAt.getD existing.createdAt
    updatedAt := some now }

/-- PUT /api/todos/:id (todos.put in src/workers/app.ts): 404 when the id is
absent, otherwise writes and returns the merged record with HTTP 200. -/
def todosPut (s : Store) (pathId : String) (updates : TodoBody) (now : Nat) :
    Store × PutResult :=
  match kvGet s pathId with
  | none => (s, PutResult.notFound)
  | some existing =>
      let updatedTodo := applyUpdates existing updates now
      (kvPut s pathId updatedTodo, PutResult.ok updatedTodo)

/-- The response body and status of DELETE /api/todos/:id. -/
structure DeleteResponse where
  status : Nat
  success : Bool
deriving Repr, DecidableEq

/-- DELETE /api/todos/:id (todos.delete in src/workers/app.ts): removes the
key and always answers success true with HTTP 200, whether or not the key
was present. -/
def todosDelete (s : Store) (id : String) : Store × DeleteResponse :=
  (kvDelete s id, { status := 200, success := true })

/-- The form data submitted to the route action (src/app/routes/todos.tsx):
formData.get returns null for an absent field, modelled as none. -/
structure FormInput where
  intent : Option String
  id : Option String
  title : Option String
  completed : Option String
deriving Repr, DecidableEq

/-- A request issued to the REST facade by the route action. -/
inductive ApiRequest where
  | post (body : TodoBody)
  | put (id : String) (body : TodoBody)
  | del (id : String)
deriving Repr, DecidableEq

/-- The normalized result the route action returns to the view: a tagged
success matching the intent, or the single error tag carrying a message. -/
inductive ActionResult where
  | create (t : StoredTodo)
  | update (t : StoredTodo)
  | delete (id : String)
  | error (msg : String)
deriving Repr, DecidableEq

/-- A whitespace character as removed by String.prototype.trim. -/
def isSpaceChar (c : Char) : Bool :=
  c = ' ' || c = '\t' || c = '\n' || c = '\r'

/-- JavaScript String.prototype.trim: strips leading and trailing
whitespace. -/
def jsTrim (s : String) : String :=
  String.mk (((s.data.dropWhile isSpaceChar).reverse.dropWhile
    isSpaceChar).reverse)

/-- The route action (export async function action in
src/app/routes/todos.tsx): switches on the intent, validates required
fields, issues at most one request to the facade and folds every failure
(missing field, non-2xx response, unknown intent) into one error result.
`genId` stands for the id crypto.randomUUID will generate server-side and
`now` for the current clock. Returns the resulting store, the action
result and the list of facade requests issued. -/
def action (s : Store) (form : FormInput) (genId : String) (now : Nat) :
    Store × ActionResult × List ApiRequest :=
  if form.intent = some "create" then
    match form.title with
    | none => (s, ActionResult.error "Title is required", [])
    | some raw =>
        let title := jsTrim raw
        if title = "" then (s, ActionResult.error "Title is required", [])
        else
          let body : TodoBody :=
            { id := none
              title := some title
              completed := some false
              createdAt := some now
              updatedAt := none }
          let r := todosPost s body genId now
          (r.1, ActionResult.create r.2, [ApiRequest.post body])
  else if form.intent = some "update" then
    match form.id with
    | none => (s, ActionResult.error "Todo ID is required", [])
    | some id =>
        if id = "" then (s, ActionResult.error "Todo ID is required", [])
        else
          let body : TodoBody :=
            { id := some id
              title := form.title
              completed := form.completed.map (fun c => decide (c = "true"))
              createdAt := none
              updatedAt := none }
          let r := todosPut s id body now
          match r.2 with
          | PutResult.notFound =>
              (r.1,
               ActionResult.error "Failed to update todo (Status: 404 Not Found)",
               [ApiRequest.put id body])
          | PutResult.ok t =>
              (r.1, ActionResult.update t, [ApiRequest.put id body])
  else if form.intent = some "delete" then
    match form.id with
    | none => (s, ActionResult.error "Todo ID is required", [])
    | some id =>
        if id = "" then (s, ActionResult.error "Todo ID is required", [])
        else
          let r := todosDelete s id
          (r.1, ActionResult.delete id, [ApiRequest.del id])
  else (s, ActionResult.error "Unknown intent", [])

/-- A notification record (ToastMessage in
src/app/context/toast-context.tsx). The optional action and onDismiss
callbacks are closures in the source; here their presence is recorded as
flags, and the delete-undo callbacks are modelled explicitly in the
DeleteFlow transition system below. -/
structure ToastMessage where
  id : String
  title : String
  description : Option String
  createdAt : Nat
  duration : Nat
  hasAction : Bool
  hasOnDismiss : Bool
deriving Repr, DecidableEq

/-- The argument of addToast: a toast with optional id and duration. -/
structure ToastInput where
  id : Option String
  title : String
  description : Option String
  duration : Option Nat
  hasAction : Bool
  hasOnDismiss : Bool
deriving Repr, DecidableEq

/-- addToast (src/app/context/toast-context.tsx): appends a toast, using
the supplied id unless it is falsy (absent or the empty string), else a
generated one, and the supplied duration unless it is falsy (absent or
zero), else the 5000 ms default. -/
def addToast (toasts : List ToastMessage) (input : ToastInput) (now : Nat)
    (genId : String) : List ToastMessage :=
  let newId :=
    match input.id with
    | some s => if s = "" then genId else s
    | none => genId
  let dur :=
    match input.duration with
    | some d => if d = 0 then 5000 else d
    | none => 5000
  toasts ++
    [{ id := newId
       title := input.title
       description := input.description
       createdAt := now
       duration := dur
       hasAction := input.hasAction
       hasOnDismiss := input.hasOnDismiss }]

/-- removeToastById (src/app/context/toast-context.tsx): filters the toast
with the given id out of the queue. -/
def removeToastById (toasts : List ToastMessage) (id : String) :
    List ToastMessage :=
  toasts.filter (fun t => t.id ≠ id)

/-- Spread-merge of a full record returned by the facade over the locally
held record (the object spread in the update branch of the actionData
effect). -/
def mergeTodo (old upd : StoredTodo) : StoredTodo :=
  { id := upd.id
    title := mergeOpt upd.title old.title
    completed := upd.completed
    createdAt := upd.createdAt
    updatedAt := mergeOpt upd.updatedAt old.updatedAt }

/-- The actionData effect of TodosPage (src/app/routes/todos.tsx): merges
an action result into the view-local todo list and, for an error result,
adds a 3-second error toast and leaves the list alone. -/
def reconcile (todos : List StoredTodo) (toasts : List ToastMessage)
    (result : ActionResult) (now : Nat) (genToastId : String) :
    List StoredTodo × List ToastMessage :=
  match result with
  | ActionResult.error msg =>
      (todos,
       addToast toasts
         { id := none
           title := "Error"
           description := some msg
           duration := some 3000
           hasAction := false
           hasOnDismiss := false }
         now genToastId)
  | ActionResult.delete id => (todos.filter (fun t => t.id ≠ id), toasts)
  | ActionResult.update t =>
      (todos.map (fun td => if td.id = t.id then mergeTodo td t else td),
       toasts)
  | ActionResult.create t => (todos ++ [t], toasts)

/-- The id handleDeleteTodo gives the undo toast for a todo. -/
def deleteToastId (id : String) : String := "todo-delete-" ++ id

/-- Combined client and server state of the deferred-delete flow:
the key-value store, the view-local list, deletingTodoIdRef.current
(kept in lock step with the deletingTodoId state), the toast queue, and
the log of facade requests issued so far. -/
structure DeleteFlow where
  store : Store
  localTodos : List StoredTodo
  deletingRef : Option String
  toasts : List ToastMessage
  dispatched : List ApiRequest
deriving Repr, DecidableEq

/-- handleDeleteTodo (src/app/routes/todos.tsx): returns early when a
delete is already pending; otherwise records the pending id and shows the
1000 ms undo toast. No facade request is issued and the store is
untouched. -/
def requestDelete (st : DeleteFlow) (id : String) (now : Nat) : DeleteFlow :=
  match st.deletingRef with
  | some _ => st
  | none =>
      { st with
          deletingRef := some id
          toasts := addToast st.toasts
            { id := some (deleteToastId id)
              title := "Todo Deleted"
              description := some "Todo has been deleted. Click to undo."
              duration := some 1000
              hasAction := true
              hasOnDismiss := true }
            now (deleteToastId id) }

/-- handleUndoDelete (src/app/routes/todos.tsx): clears the pending-delete
ref and removes the undo toast. No request is issued. -/
def undoDelete (st : DeleteFlow) (id : String) : DeleteFlow :=
  { st with
      deletingRef := none
      toasts := removeToastById st.toasts (deleteToastId id) }

/-- Expiry of the undo toast for `id`: GlobalToast.handleDismiss
(src/app/components, GlobalToast) first fires the toast's onDismiss
callback, which — only if deletingTodoIdRef.current still names this todo
— submits the delete intent through the route action, whose result the
actionData effect then reconciles into the local list; afterwards the
toast is removed. -/
def expireDeleteToast (st : DeleteFlow) (id : String) (genId : String)
    (now : Nat) : DeleteFlow :=
  let st1 :=
    if st.deletingRef = some id then
      let form : FormInput :=
        { intent := some "delete", id := some id, title := none,
          completed := none }
      let r := action st.store form genId now
      let rec2 := reconcile st.localTodos st.toasts r.2.1 now genId
      { store := r.1
        localTodos := rec2.1
        deletingRef := none
        toasts := rec2.2
        dispatched := st.dispatched ++ r.2.2 }
    else st
  { st1 with toasts := removeToastById st1.toasts (deleteToastId id) }

/-- Deleting a key makes it unreadable. -/
theorem kvGet_kvDelete_self (s : Store) (id : String) :
    kvGet (kvDelete s id) id = none := by
  induction s with
  | nil => rfl
  | cons p rest ih =>
      by_cases h : p.1 = id
      · simpa [kvDelete, h] using ih
      · simpa [kvDelete, kvGet, h] using ih

/-- Deleting a key twice is the same as deleting it once. -/
theorem kvDelete_idem (s : Store) (id : String) :
    kvDelete (kvDelete s id) id = kvDelete s id := by
  induction s with
  | nil => rfl
  | cons p rest ih =>
      by_cases h : p.1 = id
      · simp [kvDelete, h]
      · simp [kvDelete, h]

/-- Deleting an absent key leaves the store unchanged. -/
theorem kvDelete_of_kvGet_none (s : Store) (id : String)
    (h : kvGet s id = none) : kvDelete s id = s := by
  induction s with
  | nil => rfl
  | cons p rest ih =>
      by_cases hk : p.1 = id
      · simp [kvGet, hk] at h
      · simp [kvGet, hk] at h
        simp [kvDelete, hk] at ih ⊢
        exact ih h

/-- Reading back a freshly written key yields the written value. -/
theorem kvGet_kvPut_self (s : Store) (id : String) (v : StoredTodo) :
    kvGet (kvPut s id v) id = some v := by
  simp [kvPut, kvGet]

/-- C9: the delete operation is idempotent and its facade response does not
distinguish whether the record existed: for every id, DELETE answers
success true with HTTP 200 whether or not the id is present, and deleting
the same id twice leaves the store exactly as deleting it once. -/
theorem delete_idempotent_and_uniform_response (s : Store) (id : String) :
    (todosDelete s id).2.success = true ∧
    (todosDelete s id).2.status = 200 ∧
    (todosDelete (todosDelete s id).1 id).1 = (todosDelete s id).1 ∧
    kvGet (todosDelete s id).1 id = none := by
  refine ⟨rfl, rfl, kvDelete_idem s id, kvGet_kvDelete_self s id⟩

/-- C10: every toast added through addToast ends with a positive
auto-dismiss duration — an absent duration and a zero duration are both
replaced by the 5000 ms default — and a supplied empty-string id is
replaced by the generated one; exactly one toast is appended. -/
theorem addToast_defaults_duration_and_id :
    (∀ (toasts : List ToastMessage) (input : ToastInput) (now : Nat)
        (genId : String),
      ∃ t, addToast toasts input now genId = toasts ++ [t] ∧
        0 < t.duration ∧ t.title = input.title ∧
        t.description = input.description) ∧
    (∀ (toasts : List ToastMessage) (title : String)
        (desc : Option String) (a d : Bool) (now : Nat) (genId : String),
      addToast toasts ⟨some "", title, desc, none, a, d⟩ now genId =
        toasts ++ [⟨genId, title, desc, now, 5000, a, d⟩]) ∧
    (∀ (toasts : List ToastMessage) (tid title : String)
        (desc : Option String) (a d : Bool) (now : Nat) (genId : String),
      addToast toasts ⟨some tid, title, desc, some 0, a, d⟩ now genId =
        toasts ++
          [⟨if tid = "" then genId else tid, title, desc, now, 5000, a, d⟩]) := by
  refine ⟨fun toasts input now genId => ⟨_, rfl, ?_, rfl, rfl⟩, ?_, ?_⟩
  · match input with
    | ⟨i, title, desc, none, a, d⟩ => simp [addToast]
    | ⟨i, title, desc, some dur, a, d⟩ =>
        by_cases h : dur = 0
        · simp [addToast, h]
        · simp [addToast, h]
          omega
  · intro toasts title desc a d now genId
    simp [addToast]
  · intro toasts tid title desc a d now genId
    simp [addToast]

/-- C8: when the action returns an error result, the reconciliation effect
leaves the view-local todo list untouched and surfaces the error only as a
single transient (3000 ms) notification appended to the toast queue. -/
theorem error_result_mutates_nothing (todos : List StoredTodo)
    (toasts : List ToastMessage) (msg : String) (now : Nat)
    (genToastId : String) :
    (reconcile todos toasts (ActionResult.error msg) now genToastId).1 =
      todos ∧
    ∃ t, (reconcile todos toasts (ActionResult.error msg) now genToastId).2 =
        toasts ++ [t] ∧
      t.title = "Error" ∧ t.description = some msg ∧ t.duration = 3000 ∧
      0 < t.duration := by
  exact ⟨rfl, ⟨genToastId, "Error", some msg, now, 3000, false, false⟩,
    rfl, rfl, rfl, rfl, by norm_num⟩

/-- C2 counterexample: the facade's POST endpoint, reached directly, stores
a record whose title is the empty string (and, for a body without a title,
a record with no title at all) — the store-level invariant claimed for
direct facade requests fails. -/
theorem direct_post_stores_empty_title :
    kvGet (todosPost [] ⟨none, some "", some true, some 7, none⟩ "a" 0).1 "a"
      = some ⟨"a", some "", false, 0, none⟩ ∧
    kvGet (todosPost [] ⟨none, none, none, none, none⟩ "b" 0).1 "b"
      = some ⟨"b", none, false, 0, none⟩ := by
  decide

/-- C2 (amended): blank submissions are rejected by the Action Dispatcher
before creation, so every record a dispatched create intent produces has a
non-empty title; the facade itself does not validate titles, and a request
sent directly to its POST endpoint can store an empty or absent one. -/
theorem dispatcher_create_title_nonempty (s : Store) (form : FormInput)
    (g : String) (n : Nat) (t : StoredTodo)
    (h : (action s form g n).2.1 = ActionResult.create t) :
    ∃ u, t.title = some u ∧ u ≠ "" := by
  by_cases hc : form.intent = some "create"
  · cases ht : form.title with
    | none => simp [action, hc, ht] at h
    | some raw =>
        by_cases he : jsTrim raw = ""
        · simp [action, hc, ht, he] at h
        · simp [action, hc, ht, he, todosPost] at h
          exact ⟨jsTrim raw, by rw [← h], he⟩
  · by_cases hu : form.intent = some "update"
    · cases hid : form.id with
      | none => simp [action, hc, hu, hid] at h
      | some id =>
          by_cases hide : id = ""
          · simp [action, hc, hu, hid, hide] at h
          · cases hg : kvGet s id with
            | none => simp [action, hc, hu, hid, hide, todosPut, hg] at h
            | some ex => simp [action, hc, hu, hid, hide, todosPut, hg] at h
    · by_cases hd : form.intent = some "delete"
      · cases hid : form.id with
        | none => simp [action, hc, hu, hd, hid] at h
        | some id =>
            by_cases hide : id = ""
            · simp [action, hc, hu, hd, hid, hide] at h
            · simp [action, hc, hu, hd, hid, hide, todosDelete] at h
      · simp [action, hc, hu, hd] at h

/-- C2 witness: a concrete dispatched create produces a record with the
non-empty trimmed title. -/
theorem dispatcher_create_title_nonempty_witness :
    (action [] ⟨some "create", none, some "  milk  ", none⟩ "g1" 3).2.1 =
      ActionResult.create ⟨"g1", some "milk", false, 3, none⟩ ∧
    ∃ u, (⟨"g1", some "milk", false, 3, none⟩ : StoredTodo).title = some u ∧
      u ≠ "" :=
  ⟨by decide,
   dispatcher_create_title_nonempty []
     ⟨some "create", none, some "  milk  ", none⟩ "g1" 3
     ⟨"g1", some "milk", false, 3, none⟩ (by decide)⟩

/-- C3 counterexample: a PUT body that supplies createdAt overwrites the
creation timestamp, so createdAt is not immutable under an arbitrary
partial body sent directly to the facade. -/
theorem direct_put_overwrites_createdAt :
    (todosPut [("a", ⟨"a", some "x", false, 0, none⟩)] "a"
        ⟨none, none, none, some 99, none⟩ 5).2 =
      PutResult.ok ⟨"a", some "x", false, 99, some 5⟩ ∧
    kvGet (todosPut [("a", ⟨"a", some "x", false, 0, none⟩)] "a"
        ⟨none, none, none, some 99, none⟩ 5).1 "a" =
      some ⟨"a", some "x", false, 99, some 5⟩ ∧
    (⟨"a", some "x", false, 99, some 5⟩ : StoredTodo).createdAt ≠
      (⟨"a", some "x", false, 0, none⟩ : StoredTodo).createdAt := by
  refine ⟨by decide, by decide, by decide⟩

/-- C3 (amended): for every update whose body does not supply createdAt —
in particular every body the Action Dispatcher sends, which carries only
the id and optional title and completed — the merged record keeps the
existing createdAt, every unsupplied field other than updatedAt is
unchanged, and updatedAt is refreshed. -/
theorem put_preserves_unsupplied_fields (s : Store) (pathId : String)
    (updates : TodoBody) (now : Nat) (existing : StoredTodo)
    (h1 : kvGet s pathId = some existing)
    (h2 : updates.createdAt = none) :
    (todosPut s pathId updates now).2 =
      PutResult.ok (applyUpdates existing updates now) ∧
    (applyUpdates existing updates now).createdAt = existing.createdAt ∧
    (updates.title = none →
      (applyUpdates existing updates now).title = existing.title) ∧
    (updates.completed = none →
      (applyUpdates existing updates now).completed = existing.completed) ∧
    (updates.id = none →
      (applyUpdates existing updates now).id = existing.id) ∧
    (applyUpdates existing updates now).updatedAt = some now := by
  refine ⟨by simp [todosPut, h1], by simp [applyUpdates, h2], ?_, ?_, ?_, rfl⟩
  · intro ht
    simp [applyUpdates, ht, mergeOpt]
  · intro hcp
    simp [applyUpdates, hcp]
  · intro hidn
    simp [applyUpdates, hidn]

/-- C3 witness: a concrete completed-only update leaves createdAt and the
title unchanged. -/
theorem put_preserves_unsupplied_fields_witness :
    (todosPut [("a", ⟨"a", some "x", false, 0, none⟩)] "a"
        ⟨none, none, some true, none, none⟩ 5).2 =
      PutResult.ok (applyUpdates ⟨"a", some "x", false, 0, none⟩
        ⟨none, none, some true, none, none⟩ 5) ∧
    (applyUpdates ⟨"a", some "x", false, 0, none⟩
        ⟨none, none, some true, none, none⟩ 5).createdAt =
      (⟨"a", some "x", false, 0, none⟩ : StoredTodo).createdAt ∧
    (applyUpdates ⟨"a", some "x", false, 0, none⟩
        ⟨none, none, some true, none, none⟩ 5).title =
      (⟨"a", some "x", false, 0, none⟩ : StoredTodo).title :=
  have H := put_preserves_unsupplied_fields
    [("a", ⟨"a", some "x", false, 0, none⟩)] "a"
    ⟨none, none, some true, none, none⟩ 5 ⟨"a", some "x", false, 0, none⟩
    (by decide) rfl
  ⟨H.1, H.2.1, H.2.2.1 rfl⟩

/-- C4: a dispatched create intent whose trimmed title is non-empty adds
exactly one new record to the store — the old store with one record
prepended under the freshly generated id — whose title is the trimmed
input, whose completed flag is false and whose id and createdAt are the
server-assigned identifier and timestamp. -/
theorem create_adds_exactly_one_record (s : Store) (raw g : String) (n : Nat)
    (h1 : jsTrim raw ≠ "") (h2 : kvGet s g = none) :
    action s ⟨some "create", none, some raw, none⟩ g n =
      ((g, ⟨g, some (jsTrim raw), false, n, none⟩) :: s,
       ActionResult.create ⟨g, some (jsTrim raw), false, n, none⟩,
       [ApiRequest.post ⟨none, some (jsTrim raw), some false, some n, none⟩]) := by
  simp [action, h1, todosPost, kvPut, kvDelete_of_kvGet_none s g h2]

/-- C4 witness: creating "milk" (with surrounding whitespace) in the empty
store. -/
theorem create_adds_exactly_one_record_witness :
    action [] ⟨some "create", none, some "  milk  ", none⟩ "g1" 3 =
      (("g1", ⟨"g1", some (jsTrim "  milk  "), false, 3, none⟩) :: [],
       ActionResult.create ⟨"g1", some (jsTrim "  milk  "), false, 3, none⟩,
       [ApiRequest.post
          ⟨none, some (jsTrim "  milk  "), some false, some 3, none⟩]) :=
  create_adds_exactly_one_record [] "  milk  " "g1" 3 (by decide) rfl

/-- C5: the update operation answers 404 exactly when the id is absent from
the store, and then leaves the store unchanged; when the id is present it
answers 200 with the merged record whose updatedAt is refreshed to the
current clock. -/
theorem update_notfound_iff_absent (s : Store) (id : String)
    (updates : TodoBody) (now : Nat) :
    (kvGet s id = none →
      (todosPut s id updates now).2 = PutResult.notFound ∧
      (todosPut s id updates now).1 = s ∧
      PutResult.status (todosPut s id updates now).2 = 404) ∧
    (∀ existing, kvGet s id = some existing →
      (todosPut s id updates now).2 =
        PutResult.ok (applyUpdates existing updates now) ∧
      PutResult.status (todosPut s id updates now).2 = 200 ∧
      (applyUpdates existing updates now).updatedAt = some now) ∧
    ((todosPut s id updates now).2 = PutResult.notFound →
      kvGet s id = none) := by
  refine ⟨?_, ?_, ?_⟩
  · intro h
    simp [todosPut, h, PutResult.status]
  · intro existing hex
    simp [todosPut, hex, PutResult.status, applyUpdates]
  · intro hnf
    cases hg : kvGet s id with
    | none => rfl
    | some ex => simp [todosPut, hg] at hnf

/-- C5 witness: both branches at concrete inputs — a present id merges and
answers 200, an absent id answers 404 and the store is unchanged. -/
theorem update_notfound_iff_absent_witness :
    ((todosPut [("a", ⟨"a", some "x", false, 0, none⟩)] "a"
        ⟨none, none, some true, none, none⟩ 5).2 =
      PutResult.ok (applyUpdates ⟨"a", some "x", false, 0, none⟩
        ⟨none, none, some true, none, none⟩ 5)) ∧
    ((todosPut [] "a" ⟨none, none, some true, none, none⟩ 5).2 =
      PutResult.notFound) ∧
    ((todosPut [] "a" ⟨none, none, some true, none, none⟩ 5).1 = []) :=
  have H1 := update_notfound_iff_absent
    [("a", ⟨"a", some "x", false, 0, none⟩)] "a"
    ⟨none, none, some true, none, none⟩ 5
  have H2 := update_notfound_iff_absent [] "a"
    ⟨none, none, some true, none, none⟩ 5
  ⟨(H1.2.1 ⟨"a", some "x", false, 0, none⟩ (by decide)).1,
   (H2.1 rfl).1, (H2.1 rfl).2.1⟩

/-- C6: a dispatched update intent supplying only the completed field (plus
the id) on an existing record leaves the record's title unchanged and sets
updatedAt to the current clock, which strictly exceeds the record's
previous updatedAt (or, when it never was updated, its createdAt). -/
theorem toggle_preserves_title_and_bumps_updatedAt (s : Store)
    (id cs g : String) (now : Nat) (existing : StoredTodo)
    (hid : id ≠ "") (hg : kvGet s id = some existing)
    (hlt : existing.updatedAt.getD existing.createdAt < now) :
    ∃ merged,
      (action s ⟨some "update", some id, none, some cs⟩ g now).2.1 =
        ActionResult.update merged ∧
      merged.title = existing.title ∧
      ∃ u, merged.updatedAt = some u ∧
        existing.updatedAt.getD existing.createdAt < u := by
  refine ⟨applyUpdates existing
    ⟨some id, none, some (decide (cs = "true")), none, none⟩ now,
    ?_, ?_, now, rfl, hlt⟩
  · simp [action, hid, todosPut, hg]
  · simp [applyUpdates, mergeOpt]

/-- C6 witness: toggling the concrete record "a" to completed at clock 5. -/
theorem toggle_preserves_title_and_bumps_updatedAt_witness :
    ∃ merged,
      (action [("a", ⟨"a", some "x", false, 0, none⟩)]
          ⟨some "update", some "a", none, some "true"⟩ "g" 5).2.1 =
        ActionResult.update merged ∧
      merged.title = (⟨"a", some "x", false, 0, none⟩ : StoredTodo).title ∧
      ∃ u, merged.updatedAt = some u ∧
        ((⟨"a", some "x", false, 0, none⟩ :
          StoredTodo)).updatedAt.getD
          ((⟨"a", some "x", false, 0, none⟩ : StoredTodo)).createdAt < u :=
  toggle_preserves_title_and_bumps_updatedAt
    [("a", ⟨"a", some "x", false, 0, none⟩)] "a" "true" "g" 5
    ⟨"a", some "x", false, 0, none⟩ (by decide) (by decide) (by decide)

/-- C7: every dispatched intent issues at most one facade request (no
retry) and resolves either to a success result tagged like the intent or
to the single error tag carrying a non-empty human-readable message; a
missing or blank title on create, a missing or empty id on update or
delete, an unknown intent and a 404 outcome on update all land in that
same error tag. -/
theorem action_single_error_tag_no_retry (s : Store) (form : FormInput)
    (g : String) (now : Nat) :
    (action s form g now).2.2.length ≤ 1 ∧
    ((∃ msg, (action s form g now).2.1 = ActionResult.error msg ∧ msg ≠ "") ∨
     (form.intent = some "create" ∧
       ∃ t, (action s form g now).2.1 = ActionResult.create t) ∨
     (form.intent = some "update" ∧
       ∃ t, (action s form g now).2.1 = ActionResult.update t) ∨
     (form.intent = some "delete" ∧
       ∃ i, (action s form g now).2.1 = ActionResult.delete i)) ∧
    (form.intent = some "create" →
      (form.title = none ∨ ∃ raw, form.title = some raw ∧ jsTrim raw = "") →
      ∃ msg, (action s form g now).2.1 = ActionResult.error msg) ∧
    (form.intent = some "update" →
      (form.id = none ∨ form.id = some "") →
      ∃ msg, (action s form g now).2.1 = ActionResult.error msg) ∧
    (form.intent = some "delete" →
      (form.id = none ∨ form.id = some "") →
      ∃ msg, (action s form g now).2.1 = ActionResult.error msg) ∧
    (form.intent = some "update" →
      ∀ id, form.id = some id → id ≠ "" → kvGet s id = none →
      ∃ msg, (action s form g now).2.1 = ActionResult.error msg) ∧
    (form.intent ≠ some "create" → form.intent ≠ some "update" →
      form.intent ≠ some "delete" →
      ∃ msg, (action s form g now).2.1 = ActionResult.error msg) := by
  refine ⟨?_, ?_, ?_, ?_, ?_, ?_, ?_⟩
  · by_cases hc : form.intent = some "create"
    · cases ht : form.title with
      | none => simp [action, hc, ht]
      | some raw =>
          by_cases he : jsTrim raw = ""
          · simp [action, hc, ht, he]
          · simp [action, hc, ht, he]
    · by_cases hu : form.intent = some "update"
      · cases hid : form.id with
        | none => simp [action, hc, hu, hid]
        | some id =>
            by_cases hide : id = ""
            · simp [action, hc, hu, hid, hide]
            · cases hg : kvGet s id with
              | none => simp [action, hc, hu, hid, hide, todosPut, hg]
              | some ex => simp [action, hc, hu, hid, hide, todosPut, hg]
      · by_cases hd : form.intent = some "delete"
        · cases hid : form.id with
          | none => simp [action, hc, hu, hd, hid]
          | some id =>
              by_cases hide : id = ""
              · simp [action, hc, hu, hd, hid, hide]
              · simp [action, hc, hu, hd, hid, hide, todosDelete]
        · simp [action, hc, hu, hd]
  · by_cases hc : form.intent = some "create"
    · cases ht : form.title with
      | none => exact Or.inl ⟨"Title is required", by simp [action, hc, ht], by decide⟩
      | some raw =>
          by_cases he : jsTrim raw = ""
          · exact Or.inl ⟨"Title is required", by simp [action, hc, ht, he], by decide⟩
          · exact Or.inr (Or.inl ⟨hc,
              ⟨g, some (jsTrim raw), false, now, none⟩,
              by simp [action, hc, ht, he, todosPost]⟩)
    · by_cases hu : form.intent = some "update"
      · cases hid : form.id with
        | none =>
            exact Or.inl ⟨"Todo ID is required", by simp [action, hc, hu, hid], by decide⟩
        | some id =>
            by_cases hide : id = ""
            · exact Or.inl ⟨"Todo ID is required",
                by simp [action, hc, hu, hid, hide], by decide⟩
            · cases hg : kvGet s id with
              | none =>
                  exact Or.inl ⟨"Failed to update todo (Status: 404 Not Found)",
                    by simp [action, hc, hu, hid, hide, todosPut, hg], by decide⟩
              | some ex =>
                  exact Or.inr (Or.inr (Or.inl ⟨hu,
                    applyUpdates ex ⟨some id, form.title,
                      form.completed.map (fun c => decide (c = "true")),
                      none, none⟩ now,
                    by simp [action, hc, hu, hid, hide, todosPut, hg]⟩))
      · by_cases hd : form.intent = some "delete"
        · cases hid : form.id with
          | none =>
              exact Or.inl ⟨"Todo ID is required",
                by simp [action, hc, hu, hd, hid], by decide⟩
          | some id =>
              by_cases hide : id = ""
              · exact Or.inl ⟨"Todo ID is required",
                  by simp [action, hc, hu, hd, hid, hide], by decide⟩
              · exact Or.inr (Or.inr (Or.inr ⟨hd, id,
                  by simp [action, hc, hu, hd, hid, hide, todosDelete]⟩))
        · exact Or.inl ⟨"Unknown intent", by simp [action, hc, hu, hd], by decide⟩
  · intro hc hbad
    rcases hbad with ht | ⟨raw, ht, he⟩
    · exact ⟨"Title is required", by simp [action, hc, ht]⟩
    · exact ⟨"Title is required", by simp [action, hc, ht, he]⟩
  · intro hu hbad
    have hc : form.intent ≠ some "create" := by
      rw [hu]
      decide
    rcases hbad with hid | hid
    · exact ⟨"Todo ID is required", by simp [action, hc, hu, hid]⟩
    · exact ⟨"Todo ID is required", by simp [action, hc, hu, hid]⟩
  · intro hd hbad
    have hc : form.intent ≠ some "create" := by
      rw [hd]
      decide
    have hu : form.intent ≠ some "update" := by
      rw [hd]
      decide
    rcases hbad with hid | hid
    · exact ⟨"Todo ID is required", by simp [action, hc, hu, hd, hid]⟩
    · exact ⟨"Todo ID is required", by simp [action, hc, hu, hd, hid]⟩
  · intro hu id hid hide hg
    have hc : form.intent ≠ some "create" := by
      rw [hu]
      decide
    exact ⟨"Failed to update todo (Status: 404 Not Found)",
      by simp [action, hc, hu, hid, hide, todosPut, hg]⟩
  · intro hc hu hd
    exact ⟨"Unknown intent", by simp [action, hc, hu, hd]⟩

/-- C7 witness: dispatching an update for an id absent from the empty store
issues one request and resolves to the error tag. -/
theorem action_single_error_tag_no_retry_witness :
    (action [] ⟨some "update", some "a", none, some "true"⟩ "g" 5).2.2.length
      ≤ 1 ∧
    ∃ msg, (action [] ⟨some "update", some "a", none, some "true"⟩
        "g" 5).2.1 = ActionResult.error msg :=
  have H := action_single_error_tag_no_retry []
    ⟨some "update", some "a", none, some "true"⟩ "g" 5
  ⟨H.1, H.2.2.2.2.2.1 rfl "a" rfl (by decide) rfl⟩

/-- C1: the delete intent reaches the facade only when the 1000 ms undo
toast expires. At request time handleDeleteTodo issues no facade request
and leaves the store and the local list untouched; invoking undo within
the window removes the toast and never issues the delete, leaving the
store, the local list and the request log exactly as before the delete
request; letting the window lapse fires the dismiss callback, which
dispatches exactly one delete request that removes the record from the
store permanently and drops it from the local list. -/
theorem deferred_delete_undo_flow (st : DeleteFlow) (id g : String)
    (nReq nExp : Nat) (h0 : st.deletingRef = none) (hid : id ≠ "") :
    (requestDelete st id nReq).store = st.store ∧
    (requestDelete st id nReq).localTodos = st.localTodos ∧
    (requestDelete st id nReq).dispatched = st.dispatched ∧
    (undoDelete (requestDelete st id nReq) id).store = st.store ∧
    (undoDelete (requestDelete st id nReq) id).localTodos = st.localTodos ∧
    (undoDelete (requestDelete st id nReq) id).dispatched = st.dispatched ∧
    (expireDeleteToast (requestDelete st id nReq) id g nExp).store =
      kvDelete st.store id ∧
    kvGet (expireDeleteToast (requestDelete st id nReq) id g nExp).store id =
      none ∧
    (expireDeleteToast (requestDelete st id nReq) id g nExp).dispatched =
      st.dispatched ++ [ApiRequest.del id] ∧
    (expireDeleteToast (requestDelete st id nReq) id g nExp).localTodos =
      st.localTodos.filter (fun t => t.id ≠ id) := by
  have hc : (some "delete" : Option String) ≠ some "create" := by decide
  have hu : (some "delete" : Option String) ≠ some "update" := by decide
  refine ⟨?_, ?_, ?_, ?_, ?_, ?_, ?_, ?_, ?_, ?_⟩ <;>
    simp [requestDelete, h0, undoDelete, expireDeleteToast, action, hc, hu,
      hid, todosDelete, reconcile, kvGet_kvDelete_self]

/-- C1 witness: the concrete flow on a one-record store — undo leaves the
store intact with nothing dispatched, expiry dispatches the one delete
request and removes the record. -/
theorem deferred_delete_undo_flow_witness :
    (undoDelete (requestDelete
        ⟨[("a", ⟨"a", some "x", false, 0, none⟩)],
         [⟨"a", some "x", false, 0, none⟩], none, [], []⟩ "a" 1) "a").store =
      [("a", ⟨"a", some "x", false, 0, none⟩)] ∧
    (undoDelete (requestDelete
        ⟨[("a", ⟨"a", some "x", false, 0, none⟩)],
         [⟨"a", some "x", false, 0, none⟩], none, [], []⟩ "a" 1) "a").dispatched
      = ([] : List ApiRequest) ∧
    (expireDeleteToast (requestDelete
        ⟨[("a", ⟨"a", some "x", false, 0, none⟩)],
         [⟨"a", some "x", false, 0, none⟩], none, [], []⟩ "a" 1) "a" "g" 2).store
      = kvDelete [("a", ⟨"a", some "x", false, 0, none⟩)] "a" ∧
    (expireDeleteToast (requestDelete
        ⟨[("a", ⟨"a", some "x", false, 0, none⟩)],
         [⟨"a", some "x", false, 0, none⟩], none, [], []⟩ "a" 1) "a" "g" 2).dispatched
      = [] ++ [ApiRequest.del "a"] :=
  have H := deferred_delete_undo_flow
    ⟨[("a", ⟨"a", some "x", false, 0, none⟩)],
     [⟨"a", some "x", false, 0, none⟩], none, [], []⟩ "a" "g" 1 2 rfl
    (by decide)
  ⟨H.2.2.2.1, H.2.2.2.2.2.1, H.2.2.2.2.2.2.1, H.2.2.2.2.2.2.2.2.1⟩

end TodoApp
